import Mathlib

/-!
Verification development for the sandboxed code-execution-and-verification
core of the debug-agent repository.

The embedding models:
* `run_tests`            — src/agent/tools.py, the main Execution Verifier;
* `execute_python_code`  — src/agents/tools.py, the tool-based verifier;
* `evaluation_full_code` — src/eval/evaluation.py, the evaluation combine;
* `BugFixAgent`          — src/agents/fix_bug_agent.py, the repair loop.

The dynamic `exec` of Python source text is embedded as a small line-oriented
interpreter (`pyExec`) covering the statement forms the verifier contract is
exercised with: assignments, single-line function definitions, `assert`,
`print`, `raise`, `pass`, comments/blank lines and `while True: pass`.
The SIGALRM deadline is modelled as a step budget threaded through execution:
`signal.alarm(t)` arms a budget of `t` steps, every executed statement costs
one step, and exhausting the budget raises the runner's custom
`TimeoutError` inside the executed program, exactly as the signal handler
does.  Exceptions carry a traceback (outermost frame first) as
`traceback.extract_tb` exposes it; frames of the executed program have
filename `"<string>"`, frames of the runner have the runner's file name.
`SystemExit` models the `BaseException`s that are not `Exception` subclasses
and hence match none of the `except` clauses of either verifier.
-/

/-- Python's `str.split('\n')` (keeps empty segments). -/
def splitLinesAux : List Char → List Char → List String
  | [], acc => [String.mk acc.reverse]
  | c :: rest, acc =>
    if c = '\n' then String.mk acc.reverse :: splitLinesAux rest []
    else splitLinesAux rest (c :: acc)

/-- Split a string at every newline, keeping empty lines. -/
def splitLines (s : String) : List String := splitLinesAux s.data []

/-- A whitespace character, as Python's `str.strip` removes. -/
def isWS (c : Char) : Bool := c = ' ' || c = '\t' || c = '\n' || c = '\r'

/-- Python's `str.strip()`. -/
def pyStrip (s : String) : String :=
  String.mk (((s.data.dropWhile isWS).reverse.dropWhile isWS).reverse)

/-- Drop the given pattern from the front of the input, if present. -/
def dropPat : List Char → List Char → Option (List Char)
  | [], rest => some rest
  | _ :: _, [] => none
  | p :: ps, c :: cs => if c = p then dropPat ps cs else none

/-- Drop leading spaces. -/
def skipSp : List Char → List Char
  | ' ' :: cs => skipSp cs
  | cs => cs

def isIdentStart (c : Char) : Bool := c.isAlpha || c = '_'

def isIdentChar (c : Char) : Bool := c.isAlphanum || c = '_'

/-- Longest identifier-character run at the front of the input. -/
def takeIdentAux : List Char → List Char → (List Char × List Char)
  | [], acc => (acc.reverse, [])
  | c :: cs, acc =>
    if isIdentChar c then takeIdentAux cs (c :: acc) else (acc.reverse, c :: cs)

/-- Parse an identifier from the front of the input. -/
def takeIdent (cs : List Char) : Option (String × List Char) :=
  match cs with
  | c :: _ =>
    if isIdentStart c then
      let (idc, rest) := takeIdentAux cs []
      some (String.mk idc, rest)
    else none
  | [] => none

/-- Longest digit run at the front of the input. -/
def takeDigitsAux : List Char → List Char → (List Char × List Char)
  | [], acc => (acc.reverse, [])
  | c :: cs, acc =>
    if c.isDigit then takeDigitsAux cs (c :: acc) else (acc.reverse, c :: cs)

def digitsToNat (ds : List Char) : Nat :=
  ds.foldl (fun n c => n * 10 + (c.toNat - 48)) 0

/-- Parse a natural-number literal from the front of the input. -/
def takeNat (cs : List Char) : Option (Nat × List Char) :=
  match cs with
  | c :: _ =>
    if c.isDigit then
      let (ds, rest) := takeDigitsAux cs []
      some (digitsToNat ds, rest)
    else none
  | [] => none

/-- A call argument in the mini-language: an integer literal or a variable. -/
inductive CArg
  | num (n : Int)
  | var (x : String)
deriving Repr, DecidableEq

/-- An atomic expression: literal, variable, or a call `f(a1, a2, ...)`. -/
inductive Atom
  | num (n : Int)
  | var (x : String)
  | call (f : String) (args : List CArg)
deriving Repr, DecidableEq

/-- An arithmetic expression: an atom, a sum or a difference of atoms. -/
inductive Arith
  | atom (a : Atom)
  | add (a b : Atom)
  | sub (a b : Atom)
deriving Repr, DecidableEq

/-- An expression: an arithmetic expression or an equality comparison. -/
inductive PyExpr
  | arith (e : Arith)
  | eqCmp (a b : Arith)
deriving Repr, DecidableEq

/-- A statement of the mini-language (one source line each). -/
inductive Stmt
  | passS
  | assign (x : String) (e : PyExpr)
  | assertS (e : PyExpr)
  | printS (e : PyExpr)
  | deffun (f : String) (params : List String) (body : PyExpr)
  | raiseExit
  | raiseError (name : String)
  | loopForever
deriving Repr, DecidableEq

/-- Parse a call argument. -/
def parseCArg (cs : List Char) : Option (CArg × List Char) :=
  let cs := skipSp cs
  match cs with
  | '-' :: rest =>
    match takeNat rest with
    | some (n, rest') => some (.num (-(n : Int)), rest')
    | none => none
  | _ =>
    match takeNat cs with
    | some (n, rest) => some (.num (n : Int), rest)
    | none =>
      match takeIdent cs with
      | some (x, rest) => some (.var x, rest)
      | none => none

/-- Parse a comma-separated list of call arguments up to `)`. -/
def parseArgsAux : Nat → List Char → Option (List CArg × List Char)
  | 0, _ => none
  | fuel + 1, cs =>
    match parseCArg cs with
    | none => none
    | some (a, cs1) =>
      match skipSp cs1 with
      | ')' :: rest => some ([a], rest)
      | ',' :: rest =>
        match parseArgsAux fuel rest with
        | some (as, rest') => some (a :: as, rest')
        | none => none
      | _ => none

/-- Parse an atom; an identifier followed by `(` is a call. -/
def parseAtom (cs : List Char) : Option (Atom × List Char) :=
  let cs := skipSp cs
  match cs with
  | '-' :: rest =>
    match takeNat rest with
    | some (n, rest') => some (.num (-(n : Int)), rest')
    | none => none
  | _ =>
    match takeNat cs with
    | some (n, rest) => some (.num (n : Int), rest)
    | none =>
      match takeIdent cs with
      | some (x, rest) =>
        match rest with
        | '(' :: rest' =>
          match parseArgsAux (rest'.length + 1) rest' with
          | some (as, rest'') => some (.call x as, rest'')
          | none => none
        | _ => some (.var x, rest)
      | none => none

/-- Parse an arithmetic expression: atom, optionally `+`/`-` a second atom. -/
def parseArith (cs : List Char) : Option (Arith × List Char) :=
  match parseAtom cs with
  | none => none
  | some (a, cs1) =>
    match skipSp cs1 with
    | '+' :: rest =>
      match parseAtom rest with
      | some (b, rest') => some (.add a b, rest')
      | none => none
    | '-' :: rest =>
      match parseAtom rest with
      | some (b, rest') => some (.sub a b, rest')
      | none => none
    | _ => some (.atom a, cs1)

/-- Parse an expression: arithmetic, optionally `==` a second arithmetic. -/
def parsePyExpr (cs : List Char) : Option (PyExpr × List Char) :=
  match parseArith cs with
  | none => none
  | some (a, cs1) =>
    match skipSp cs1 with
    | '=' :: '=' :: rest =>
      match parseArith rest with
      | some (b, rest') => some (.eqCmp a b, rest')
      | none => none
    | _ => some (.arith a, cs1)

/-- Only trailing spaces remain. -/
def onlySp (cs : List Char) : Bool := (skipSp cs).isEmpty

/-- Parse a full expression spanning the rest of a line. -/
def parseExprAll (cs : List Char) : Option PyExpr :=
  match parsePyExpr cs with
  | some (e, rest) => if onlySp rest then some e else none
  | none => none

/-- Parse the parameter list of a single-line `def`, up to `)`. -/
def parseParamsAux : Nat → List Char → Option (List String × List Char)
  | 0, _ => none
  | fuel + 1, cs =>
    match takeIdent (skipSp cs) with
    | none => none
    | some (x, cs1) =>
      match skipSp cs1 with
      | ')' :: rest => some ([x], rest)
      | ',' :: rest =>
        match parseParamsAux fuel rest with
        | some (xs, rest') => some (x :: xs, rest')
        | none => none
      | _ => none

/-- Parse `def f(p1,...,pn): return EXPR`. -/
def parseDef (cs : List Char) : Option Stmt :=
  match dropPat "def ".data cs with
  | none => none
  | some cs1 =>
    match takeIdent (skipSp cs1) with
    | none => none
    | some (f, cs2) =>
      match cs2 with
      | '(' :: cs3 =>
        match parseParamsAux (cs3.length + 1) cs3 with
        | none => none
        | some (ps, cs4) =>
          match dropPat ":".data (skipSp cs4) with
          | none => none
          | some cs5 =>
            match dropPat "return ".data (skipSp cs5) with
            | none => none
            | some cs6 =>
              match parseExprAll cs6 with
              | some e => some (.deffun f ps e)
              | none => none
      | _ => none

/-- Parse `x = EXPR` (a single `=`, not `==`). -/
def parseAssign (cs : List Char) : Option Stmt :=
  match takeIdent cs with
  | none => none
  | some (x, cs1) =>
    match skipSp cs1 with
    | '=' :: '=' :: _ => none
    | '=' :: rest =>
      match parseExprAll rest with
      | some e => some (.assign x e)
      | none => none
    | _ => none

/-- Parse one source line into a statement.  `none` is a syntax error.
Blank lines and `#` comment lines are no-ops; a line indented with content
does not parse (module-level code in the combined program is unindented). -/
def parseLine (s : String) : Option Stmt :=
  let t := pyStrip s
  if t = "" then some .passS
  else if t.data.head? = some '#' then some .passS
  else if s.data.head? = some ' ' then none
  else
    let cs := t.data
    if t = "pass" then some .passS
    else if t = "while True: pass" then some .loopForever
    else if t = "raise SystemExit" then some .raiseExit
    else
      match dropPat "raise ".data cs with
      | some cs1 =>
        match takeIdent (skipSp cs1) with
        | some (nm, rest) => if onlySp rest then some (.raiseError nm) else none
        | none => none
      | none =>
        match dropPat "assert ".data cs with
        | some cs1 =>
          match parseExprAll cs1 with
          | some e => some (.assertS e)
          | none => none
        | none =>
          match dropPat "print(".data cs with
          | some cs1 =>
            match parsePyExpr cs1 with
            | some (e, rest) =>
              match skipSp rest with
              | ')' :: rest' => if onlySp rest' then some (.printS e) else none
              | _ => none
            | none => none
          | none =>
            match parseDef cs with
            | some st => some st
            | none => parseAssign cs

/-- Parse a numbered list of source lines; the first failing line is the
syntax error, reported with its line number and text. -/
def parseLinesFrom : List String → Nat → Except (Nat × String) (List (Nat × Stmt))
  | [], _ => .ok []
  | s :: rest, n =>
    match parseLine s with
    | none => .error (n, s)
    | some st =>
      match parseLinesFrom rest (n + 1) with
      | .ok sts => .ok ((n, st) :: sts)
      | .error e => .error e

/-- Statically parse a whole program text, as `exec`'s compile step does
before any statement runs. -/
def parseProgram (code : String) : Except (Nat × String) (List (Nat × Stmt)) :=
  parseLinesFrom (splitLines code) 1

/-- A traceback frame as `traceback.extract_tb` exposes it. -/
structure Frame where
  fname : String
  lineno : Nat
deriving Repr, DecidableEq

/-- The exceptions the verifiers distinguish.  `timeoutErr` is the runner's
custom `TimeoutError(Exception)` raised by the SIGALRM handler (carrying the
handler's message); `systemExit` stands for the `BaseException`s that are not
`Exception` subclasses and so match none of the `except` clauses. -/
inductive PyExc
  | timeoutErr (msg : String)
  | assertionErr (msg : String)
  | synErr (lineno : Nat) (text : String) (msg : String)
  | pyError (name msg : String)
  | systemExit
deriving Repr, DecidableEq

/-- Whether the exception is an `Exception` subclass (caught by
`except Exception`). -/
def isExceptionClass : PyExc → Bool
  | .systemExit => false
  | _ => true

/-- `type(e).__name__`. -/
def excName : PyExc → String
  | .timeoutErr _ => "TimeoutError"
  | .assertionErr _ => "AssertionError"
  | .synErr _ _ _ => "SyntaxError"
  | .pyError n _ => n
  | .systemExit => "SystemExit"

/-- `str(e)`. -/
def excStr : PyExc → String
  | .timeoutErr m => m
  | .assertionErr m => m
  | .synErr _ _ m => m
  | .pyError _ m => m
  | .systemExit => ""

/-- A binding in an `exec` namespace: an integer value or a function
(parameter list, single-expression body, line of its `def`). -/
inductive PyBind
  | val (n : Int)
  | fn (params : List String) (body : PyExpr) (line : Nat)
deriving Repr, DecidableEq

/-- An `exec` namespace (a Python dict; first binding wins on lookup). -/
def Ns := List (String × PyBind)

instance : DecidableEq Ns := inferInstanceAs (DecidableEq (List (String × PyBind)))

/-- Dict assignment (the most recent binding shadows older ones). -/
def nsSet (ns : Ns) (x : String) (b : PyBind) : Ns := (x, b) :: ns

/-- Dict lookup. -/
def nsGet (ns : Ns) (x : String) : Option PyBind :=
  List.lookup x (ns : List (String × PyBind))

/-- An evaluation error: exception name, message, and the extra call-chain
frames below the statement's own frame (outermost first). -/
structure EvalErr where
  ename : String
  emsg : String
  frames : List Frame
deriving Repr, DecidableEq

/-- Evaluate a call argument in the current scope (locals, then globals). -/
def evalCArg (g : Ns) (loc : Option Ns) : CArg → Except EvalErr Int
  | .num n => .ok n
  | .var x =>
    match (match loc with
           | some l => (nsGet l x).orElse (fun _ => nsGet g x)
           | none => nsGet g x) with
    | some (.val n) => .ok n
    | some (.fn _ _ _) => .error ⟨"TypeError", "unsupported operand", []⟩
    | none => .error ⟨"NameError", "name " ++ x ++ " is not defined", []⟩

/-- Evaluate an arithmetic expression given an atom evaluator. -/
def evalArithW (ev : Atom → Except EvalErr Int) : Arith → Except EvalErr Int
  | .atom a => ev a
  | .add a b => do pure ((← ev a) + (← ev b))
  | .sub a b => do pure ((← ev a) - (← ev b))

/-- Evaluate an expression given an atom evaluator.  An equality comparison
yields 1 or 0 (Python truthiness of the resulting bool). -/
def evalExprW (ev : Atom → Except EvalErr Int) : PyExpr → Except EvalErr Int
  | .arith e => evalArithW ev e
  | .eqCmp a b => do
    let va ← evalArithW ev a
    let vb ← evalArithW ev b
    pure (if va = vb then 1 else 0)

/-- Evaluate an atom.  A call looks the function up in the globals, binds its
parameters as locals and evaluates the body with one unit of call depth
consumed; exhausting the depth is Python's `RecursionError`.  Errors raised
inside a body gain the body's frame (the `def` line, since bodies are
single-line). -/
def evalAtom (g : Ns) : Nat → Option Ns → Atom → Except EvalErr Int
  | _, _, .num n => .ok n
  | _, loc, .var x => evalCArg g loc (.var x)
  | fuel, loc, .call f args =>
    match nsGet g f with
    | none => .error ⟨"NameError", "name " ++ f ++ " is not defined", []⟩
    | some (.val _) => .error ⟨"TypeError", "int object is not callable", []⟩
    | some (.fn ps body dl) =>
      match fuel with
      | 0 => .error ⟨"RecursionError", "maximum recursion depth exceeded", []⟩
      | fuel' + 1 =>
        match args.mapM (evalCArg g loc) with
        | .error e => .error e
        | .ok vs =>
          if ps.length = vs.length then
            match evalExprW (evalAtom g fuel' (some (ps.zip (vs.map PyBind.val)))) body with
            | .ok v => .ok v
            | .error e => .error { e with frames := ⟨"<string>", dl⟩ :: e.frames }
          else .error ⟨"TypeError", "wrong number of arguments", []⟩

/-- CPython's default recursion limit. -/
def recursionLimit : Nat := 1000

/-- Evaluate an expression at module level or in a local scope. -/
def evalExpr (g : Ns) (loc : Option Ns) (e : PyExpr) : Except EvalErr Int :=
  evalExprW (evalAtom g recursionLimit loc) e

/-- Outcome of executing a program text in a namespace: normal completion,
an exception with its traceback (outermost frame first) and the output
captured so far, or divergence (the call of `exec` never returns).  Each
outcome other than divergence reports the remaining alarm budget. -/
inductive ExecOut
  | ok (ns : Ns) (out : String) (alarm : Option Nat)
  | exc (e : PyExc) (tb : List Frame) (out : String) (alarm : Option Nat)
  | diverges
deriving DecidableEq

/-- One alarm tick per executed statement. -/
def tickAlarm : Option Nat → Option Nat
  | some (k + 1) => some k
  | some 0 => some 0
  | none => none

/-- Execute a parsed statement list.  When the armed alarm budget reaches
zero the SIGALRM handler fires inside the executed program, raising the
runner's custom `TimeoutError` with the handler's message `tmoMsg` at the
statement about to execute; a fired alarm is disarmed.  `while True: pass`
either reaches the deadline or, with no alarm armed, diverges. -/
def execList (tmoMsg : String) :
    List (Nat × Stmt) → Ns → String → Option Nat → ExecOut
  | [], ns, out, al => .ok ns out al
  | (l, st) :: rest, ns, out, al =>
    match al with
    | some 0 => .exc (.timeoutErr tmoMsg) [⟨"<string>", l⟩] out none
    | _ =>
      let al' := tickAlarm al
      match st with
      | .passS => execList tmoMsg rest ns out al'
      | .assign x e =>
        match evalExpr ns none e with
        | .ok v => execList tmoMsg rest (nsSet ns x (.val v)) out al'
        | .error err =>
          .exc (.pyError err.ename err.emsg) (⟨"<string>", l⟩ :: err.frames) out al'
      | .assertS e =>
        match evalExpr ns none e with
        | .ok v =>
          if v ≠ 0 then execList tmoMsg rest ns out al'
          else .exc (.assertionErr "") [⟨"<string>", l⟩] out al'
        | .error err =>
          .exc (.pyError err.ename err.emsg) (⟨"<string>", l⟩ :: err.frames) out al'
      | .printS e =>
        match evalExpr ns none e with
        | .ok v => execList tmoMsg rest ns (out ++ toString v ++ "\n") al'
        | .error err =>
          .exc (.pyError err.ename err.emsg) (⟨"<string>", l⟩ :: err.frames) out al'
      | .deffun f ps body => execList tmoMsg rest (nsSet ns f (.fn ps body l)) out al'
      | .raiseExit => .exc .systemExit [⟨"<string>", l⟩] out al'
      | .raiseError nm => .exc (.pyError nm "") [⟨"<string>", l⟩] out al'
      | .loopForever =>
        match al' with
        | none => .diverges
        | some _ => .exc (.timeoutErr tmoMsg) [⟨"<string>", l⟩] out none

/-- `exec(code, namespace)`: compile the whole text first (a syntax error
executes nothing and carries no `"<string>"` frame, exactly as CPython's
compile-time `SyntaxError` tracebacks do), then run the statements. -/
def pyExec (tmoMsg : String) (code : String) (ns : Ns) (al : Option Nat) : ExecOut :=
  match parseProgram code with
  | .error (l, txt) => .exc (.synErr l txt "invalid syntax") [] "" al
  | .ok stmts => execList tmoMsg stmts ns "" al

/-- src/agent/tools.py line 134: `full_code = function_code + "\n\n" + test_code`. -/
def combineSources (function_code test_code : String) : String :=
  function_code ++ "\n\n" ++ test_code

/-- src/eval/evaluation.py line 75: `full_code = code + row['test']` (no
separator between the candidate code and the test text). -/
def evaluation_full_code (code test : String) : String := code ++ test

/-- The result dictionary of `run_tests` (src/agent/tools.py).  Optional
fields model keys that are present only on some paths. -/
structure TestResult where
  status : String
  success : Bool
  message : String
  error : Option String := none
  error_line : Option Nat := none
  error_code : Option String := none
  stdout : Option String := none
  stderr : Option String := none
  tb_text : Option String := none
deriving Repr, DecidableEq

/-- The result dictionary of `execute_python_code` (src/agents/tools.py);
all four keys are always present (initialised up front). -/
structure ExecResult where
  success : Bool
  output : String
  error : String
  tests_passed : Bool
deriving Repr, DecidableEq

/-- How a verification call exits, as seen by its caller: a returned record,
a propagated exception, or no return at all.  Both carry the final state of
the process-global SIGALRM timer. -/
inductive RunRes (α : Type)
  | returns (r : α) (alarm : Option Nat)
  | raises (e : PyExc) (alarm : Option Nat)
  | diverges
deriving DecidableEq

/-- The returned record, when the call returned one. -/
def resultOf : RunRes α → Option α
  | .returns r _ => some r
  | _ => none

/-- The final alarm state of a call that exited (`none` if it never did). -/
def resAlarm : RunRes α → Option (Option Nat)
  | .returns _ a => some a
  | .raises _ a => some a
  | .diverges => none

/-- The alarm state a caller continues from after the call exited. -/
def stateAfter : RunRes α → Option Nat
  | .returns _ a => a
  | .raises _ a => a
  | .diverges => none

/-- A line of `traceback.format_exc()`. -/
def formatFrame (f : Frame) : String :=
  "  File " ++ f.fname ++ ", line " ++ toString f.lineno ++ "\n"

/-- `traceback.format_exc()` for the captured exception. -/
def formatExc (e : PyExc) (tb : List Frame) : String :=
  "Traceback (most recent call last):\n" ++ String.join (tb.map formatFrame)
    ++ excName e ++ ": " ++ excStr e

/-- The loop `for frame in reversed(tb): if frame.filename == '<string>':
... break` of both `except` handlers: the deepest frame whose source is the
executed program itself. -/
def findUserFrameLine (tb : List Frame) : Option Nat :=
  (tb.reverse.find? (fun f => f.fname == "<string>")).map Frame.lineno

/-- The stack frame of `run_tests` itself (the `exec(full_code, namespace)`
call site at src/agent/tools.py line 152), which `traceback.extract_tb`
reports above the frames of the executed program. -/
def runTestsFrame : Frame := ⟨"src/agent/tools.py", 152⟩

/-- The `error_line`/`error_code` extraction shared by the `AssertionError`
and generic `Exception` handlers of `run_tests`: deepest `"<string>"` frame,
then the trimmed source line when the line number is in range. -/
def runTestsErrInfo (tb : List Frame) (full_code_lines : List String) :
    Option Nat × Option String :=
  let errLine := findUserFrameLine tb
  let errCode : Option String :=
    match errLine with
    | some n =>
      if 0 < n ∧ n ≤ full_code_lines.length
      then some (pyStrip (full_code_lines.getD (n - 1) ""))
      else none
    | none => none
  (errLine, errCode)

/-- Populate the optional fields under the source's truthiness tests
(`if error_line_num:` and `if error_code:`) and extend the message. -/
def runTestsAttach (base : TestResult) (errLine : Option Nat)
    (errCode : Option String) : TestResult :=
  let r1 :=
    match errLine with
    | some n => if n ≠ 0 then { base with error_line := some n } else base
    | none => base
  match errCode with
  | some c =>
    if c ≠ "" then
      { r1 with
        error_code := some c,
        message := r1.message ++ "\n  Line " ++ toString (errLine.getD 0) ++ ": " ++ c }
    else r1
  | none => r1

/-- `run_tests` of src/agent/tools.py, modelled on its two source texts (the
`readfile` calls that produce `function_code` and `test_code` from paths are
upstream I/O glue outside the verification core).  `al0` is the state of the
process-global SIGALRM timer when the call starts; the call arms it with the
5-second budget, executes the combined text in a fresh empty namespace with
redirected streams, and classifies the outcome exactly as the source's
`try/except/finally` ladder does.  `SystemExit` matches no `except` clause
and propagates (through the two `finally` blocks, which disarm the timer). -/
def run_tests (function_code test_code : String) (al0 : Option Nat) :
    RunRes TestResult :=
  let timeout_seconds : Nat := 5
  let full_code := combineSources function_code test_code
  let full_code_lines := splitLines full_code
  -- signal.signal(SIGALRM, timeout_handler); signal.alarm(timeout_seconds)
  let _ := al0
  let al := some timeout_seconds
  -- namespace = {}; redirect stdout/stderr; exec(full_code, namespace)
  match pyExec "Test execution timed out" full_code [] al with
  | .diverges => .diverges
  | .ok _ out _ =>
    -- inner finally: restore streams, signal.alarm(0)
    let stdout_output := out
    let stderr_output := ""
    let base : TestResult :=
      { status := "passed", success := true,
        message := "All tests executed successfully" }
    let r1 := if stdout_output ≠ "" then { base with stdout := some stdout_output } else base
    let r2 := if stderr_output ≠ "" then { r1 with stderr := some stderr_output } else r1
    .returns r2 none
  | .exc e tb out _ =>
    -- inner finally runs first: streams restored, signal.alarm(0)
    let _ := out
    let tbFull := runTestsFrame :: tb
    match e with
    | .timeoutErr _ =>
      .returns
        { status := "timeout", success := false,
          message := "Test execution timed out (exceeded "
            ++ toString timeout_seconds ++ " seconds)",
          error := some "TimeoutError",
          tb_text := some (formatExc e tbFull) } none
    | .assertionErr amsg =>
      let (errLine, errCode) := runTestsErrInfo tbFull full_code_lines
      let base : TestResult :=
        { status := "failed", success := false,
          message := "✗Test failed: " ++ (if amsg ≠ "" then amsg else "Assertion failed"),
          error := some "AssertionError" }
      .returns (runTestsAttach base errLine errCode) none
    | .systemExit => .raises .systemExit none
    | _ =>
      let (errLine, errCode) := runTestsErrInfo tbFull full_code_lines
      let base : TestResult :=
        { status := "error", success := false,
          message := "✗ Execution error: " ++ excName e ++ ": " ++ excStr e,
          error := some (excName e) }
      .returns (runTestsAttach base errLine errCode) none

/-- The shared shape of `execute_python_code`'s `except` handlers: disarm
the alarm only off Windows, attach the stdout captured so far, and format
the error; `SystemExit` matches no handler and propagates with the alarm
untouched (the function has no `finally`). -/
def execPyHandler (win32 : Bool) (e : PyExc) (tb : List Frame) (out : String)
    (al : Option Nat) : RunRes ExecResult :=
  let al' := if win32 then al else none
  match e with
  | .timeoutErr m =>
    .returns { success := false, output := out,
               error := "Timeout: " ++ m, tests_passed := false } al'
  | .assertionErr m =>
    .returns { success := false, output := out,
               error := "Test failed: " ++ m ++ "\n" ++ formatExc e tb,
               tests_passed := false } al'
  | .systemExit => .raises .systemExit al
  | _ =>
    .returns { success := false, output := out,
               error := excName e ++ ": " ++ excStr e ++ "\n" ++ formatExc e tb,
               tests_passed := false } al'

/-- `execute_python_code` of src/agents/tools.py.  `win32` is
`sys.platform == 'win32'`: the alarm is armed and disarmed only off
Windows.  The code and the optional test code are executed as two separate
`exec` calls sharing one fresh namespace (`__builtins__` and `print` are
ambient in the interpreter model) and one captured stdout buffer. -/
def execute_python_code (win32 : Bool) (code : String) (test_code : String)
    (timeout : Nat) (al0 : Option Nat) : RunRes ExecResult :=
  let tmoMsg := "Code execution timed out"
  -- if sys.platform != 'win32': signal.signal(...); signal.alarm(timeout)
  let al := if win32 then al0 else some timeout
  match pyExec tmoMsg code [] al with
  | .diverges => .diverges
  | .exc e tb out al1 => execPyHandler win32 e tb out al1
  | .ok ns1 out1 al1 =>
    if test_code ≠ "" then
      match pyExec tmoMsg test_code ns1 al1 with
      | .diverges => .diverges
      | .exc e tb out2 al2 => execPyHandler win32 e tb (out1 ++ out2) al2
      | .ok _ out2 al2 =>
        -- if sys.platform != 'win32': signal.alarm(0)
        let al3 := if win32 then al2 else none
        .returns { success := true, output := out1 ++ out2, error := "",
                   tests_passed := true } al3
    else
      let al3 := if win32 then al1 else none
      .returns { success := true, output := out1, error := "",
                 tests_passed := true } al3

/-- First occurrence split: `some (before, after)` when the pattern occurs
in the string, scanning left to right. -/
def splitFirstAux (pat : List Char) : List Char → List Char →
    Option (List Char × List Char)
  | [], acc =>
    match dropPat pat [] with
    | some rest => some (acc.reverse, rest)
    | none => none
  | c :: cs, acc =>
    match dropPat pat (c :: cs) with
    | some rest => some (acc.reverse, rest)
    | none => splitFirstAux pat cs (c :: acc)

/-- Split a string at the first occurrence of a pattern. -/
def splitFirst (s pat : String) : Option (String × String) :=
  match splitFirstAux pat.data s.data [] with
  | some (a, b) => some (String.mk a, String.mk b)
  | none => none

/-- Python's `pat in s` substring test. -/
def strContains (s pat : String) : Bool := (splitFirst s pat).isSome

/-- The agent's regex `r'```python\s*(.*?)\s*```'` with `re.DOTALL`: text
between the first ````python` marker and the next ` ``` `, stripped. -/
def extractPyBlock (s : String) : Option String :=
  match splitFirst s "```python" with
  | none => none
  | some (_, rest) =>
    match splitFirst rest "```" with
    | none => none
    | some (mid, _) => some (pyStrip mid)

/-- A message of the LangGraph conversation state. -/
inductive Msg
  | human (content : String)
  | ai (content : String)
  | toolMsg (content : String)
deriving Repr, DecidableEq

/-- The `AgentState` TypedDict of src/agents/fix_bug_agent.py. -/
structure AgentState where
  messages : List Msg
  buggy_code : String
  docstring : String
  tests : String
  fixed_code : String
  iteration : Nat
  max_iterations : Nat
deriving Repr, DecidableEq

/-- `messages[-1]` (the graph always enters through the agent node, so the
list is nonempty wherever this is read). -/
def lastMsgD (l : List Msg) : Msg := l.getLastD (.human "")

/-- `messages[-2]`. -/
def penultMsgD (l : List Msg) : Msg := l.getD (l.length - 2) (.human "")

/-- The initial debugging prompt built by `_agent_node` on iteration 0. -/
def initialPrompt (docstring buggy_code tests : String) : String :=
  "You are a Python debugging expert. Your task is to fix the buggy code below.\n\n"
    ++ "Docstring (specification):\n" ++ docstring ++ "\n\n"
    ++ "Buggy code:\n```python\n" ++ buggy_code ++ "\n```\n\n"
    ++ "Tests that must pass:\n```python\n" ++ tests ++ "\n```\n\n"
    ++ "Use the execute_python_code tool to test your fixes."

/-- `_agent_node`: on the first round append the initial prompt, then append
the reasoning oracle's response and advance the iteration counter.  The
oracle parameter abstracts the LLM call of `_get_llm_response`. -/
def agent_node (oracle : List Msg → String) (st : AgentState) : AgentState :=
  let msgs :=
    if st.iteration = 0 then
      st.messages ++ [.human (initialPrompt st.docstring st.buggy_code st.tests)]
    else st.messages
  { st with messages := msgs ++ [.ai (oracle msgs)],
            iteration := st.iteration + 1 }

/-- `_should_continue`: the routing function of the graph, checked in the
source's order — iteration budget, tool request in the last AI message,
code block in the last AI message, mojibake success marker in the previous
tool message, then default continue under the budget. -/
def should_continue (st : AgentState) : String :=
  let last := lastMsgD st.messages
  if st.iteration ≥ st.max_iterations then "extract"
  else if (match last with
           | .ai c => strContains c "execute_python_code"
           | _ => false) then "continue"
  else if (match last with
           | .ai c => strContains c "```python"
           | _ => false) then "extract"
  else if (decide (st.messages.length ≥ 2) &&
          (match penultMsgD st.messages with
           | .toolMsg c => strContains c "âœ“ Success"
           | _ => false)) then "extract"
  else if st.iteration < st.max_iterations then "continue"
  else "end"

/-- The `ToolNode`: run the tool on the last AI message and append its
output as a tool message.  `toolRun` abstracts `create_code_execution_tool`'s
`run_code` wrapper. -/
def tools_node (toolRun : String → String) (st : AgentState) : AgentState :=
  let req := match lastMsgD st.messages with | .ai c => c | _ => ""
  { st with messages := st.messages ++ [.toolMsg (toolRun req)] }

/-- `_extract_code_node`'s scan: the first AI message, searching from the
most recent, that contains a fenced Python block. -/
def firstAIBlock : List Msg → Option String
  | [] => none
  | .ai c :: rest =>
    match extractPyBlock c with
    | some code => some code
    | none => firstAIBlock rest
  | _ :: rest => firstAIBlock rest

/-- `_extract_code_node`: extract the fenced code, falling back to the
original buggy code when no fix was found. -/
def extract_code_node (st : AgentState) : AgentState :=
  match firstAIBlock st.messages.reverse with
  | some code => { st with fixed_code := code }
  | none => { st with fixed_code := st.buggy_code }

/-- The compiled graph: agent → (conditional) → tools → agent ... →
extract_code → END.  Fuel bounds the recursion; every pass through the
agent node increments `iteration` and the budget check forces the extract
branch once `iteration ≥ max_iterations`, so `max_iterations + 1` fuel is
never exhausted. -/
def graphLoop (oracle : List Msg → String) (toolRun : String → String) :
    Nat → AgentState → AgentState
  | 0, st => st
  | fuel + 1, st =>
    let st1 := agent_node oracle st
    let route := should_continue st1
    if route = "continue" then graphLoop oracle toolRun fuel (tools_node toolRun st1)
    else if route = "extract" then extract_code_node st1
    else st1

/-- `graph.invoke` on an initial state. -/
def graph_invoke (oracle : List Msg → String) (toolRun : String → String)
    (st : AgentState) : AgentState :=
  graphLoop oracle toolRun (st.max_iterations + 1) st

/-- `BugFixAgent.fix_bug`: build the initial state, run the graph, return
the final state (whose `fixed_code` is the repaired source). -/
def fix_bug (oracle : List Msg → String) (toolRun : String → String)
    (max_iterations : Nat) (buggy_code docstring tests : String) : AgentState :=
  let initial_state : AgentState :=
    { messages := [], buggy_code := buggy_code, docstring := docstring,
      tests := tests, fixed_code := "", iteration := 0,
      max_iterations := max_iterations }
  graph_invoke oracle toolRun initial_state

/-- Whether an execution outcome is one the `except` ladder of a verifier
can catch: normal completion or an `Exception`-class exception.  Divergence
and `BaseException`s that are not `Exception`s (`SystemExit`) are not. -/
def isExcClassOut : ExecOut → Bool
  | .ok _ _ _ => true
  | .exc e _ _ _ => isExceptionClass e
  | .diverges => false

/-- Whether a call exited by returning a record. -/
def isReturnsB : RunRes α → Bool
  | .returns _ _ => true
  | _ => false

/-- The outcome of the program text(s) an `execute_python_code` call (off
Windows, `timeout = n`) feeds to `exec`: the first `exec` of the code text
with a freshly armed alarm and, when it completes normally and a test text
is present, the second `exec` of the test text continuing the same
namespace and remaining alarm — mirroring the two `exec` calls of
src/agents/tools.py lines 63-67.  Built from the execution semantics so
the handlers' coverage can be stated over it. -/
def execPyOutcome (code test : String) (n : Nat) : ExecOut :=
  match pyExec "Code execution timed out" code [] (some n) with
  | ExecOut.ok ns1 out1 al1 =>
    if test ≠ "" then pyExec "Code execution timed out" test ns1 al1
    else ExecOut.ok ns1 out1 al1
  | outc => outc

theorem splitLinesAux_newline (xs : List Char) :
    ∀ (acc ys : List Char),
      splitLinesAux (xs ++ '\n' :: ys) acc =
        splitLinesAux xs acc ++ splitLinesAux ys [] := by
  induction xs with
  | nil => intro acc ys; simp [splitLinesAux]
  | cons c cs ih =>
    intro acc ys
    by_cases hc : c = '\n'
    · subst hc; simp [splitLinesAux, ih]
    · simp [splitLinesAux, hc, ih]

theorem splitLines_append_blank (a b : String) :
    splitLines (a ++ "\n\n" ++ b) = splitLines a ++ [""] ++ splitLines b := by
  have hd : (a ++ "\n\n" ++ b).data = a.data ++ '\n' :: '\n' :: b.data := by
    rw [String.data_append, String.data_append]
    have hnn : "\n\n".data = ['\n', '\n'] := rfl
    rw [hnn, List.append_assoc]
    rfl
  rw [splitLines, hd, splitLinesAux_newline a.data [] ('\n' :: b.data)]
  have h2 : splitLinesAux ('\n' :: b.data) [] = "" :: splitLinesAux b.data [] := by
    simp [splitLinesAux]
  rw [h2]
  simp [splitLines]

theorem lastMsgD_append (l : List Msg) (m : Msg) : lastMsgD (l ++ [m]) = m := by
  simp [lastMsgD]

theorem execList_some_ne_diverges (m : String) :
    ∀ (stmts : List (Nat × Stmt)) (ns : Ns) (out : String) (k : Nat),
      execList m stmts ns out (some k) ≠ ExecOut.diverges := by
  intro stmts
  induction stmts with
  | nil => intro ns out k; simp [execList]
  | cons p rest ih =>
    intro ns out k
    obtain ⟨l, st⟩ := p
    cases k with
    | zero => simp [execList]
    | succ k' =>
      cases st with
      | passS => simpa [execList, tickAlarm] using ih ns out k'
      | assign x e =>
        simp only [execList, tickAlarm]
        split
        · apply ih
        · simp
      | assertS e =>
        simp only [execList, tickAlarm]
        split
        · split
          · apply ih
          · simp
        · simp
      | printS e =>
        simp only [execList, tickAlarm]
        split
        · apply ih
        · simp
      | deffun f ps body => simpa [execList, tickAlarm] using ih _ out k'
      | raiseExit => simp [execList, tickAlarm]
      | raiseError nm => simp [execList, tickAlarm]
      | loopForever => simp [execList, tickAlarm]

theorem pyExec_some_ne_diverges (m code : String) (ns : Ns) (k : Nat) :
    pyExec m code ns (some k) ≠ ExecOut.diverges := by
  unfold pyExec
  split
  · simp
  · apply execList_some_ne_diverges

/-- C4, counterexample: the claim says every verifier executes the
concatenation of candidate and test with exactly one blank line between
them, but the evaluation harness (src/eval/evaluation.py line 75) combines
with no separator at all: on candidate `x = 1` and test `assert x == 1` the
program it executes differs from the blank-line concatenation. -/
theorem C4_counterexample :
    evaluation_full_code "x = 1" "assert x == 1" ≠
      combineSources "x = 1" "assert x == 1" := by
  decide

/-- C4, amended: the agent verifier (src/agent/tools.py) combines candidate
first, then a blank line, then the test text, so the combined program's
lines are exactly the candidate's lines, one empty line, and the test's
lines — diagnostics therefore use the combined numbering; the evaluation
harness (src/eval/evaluation.py), by contrast, concatenates candidate and
test with no separator. -/
theorem C4_theorem :
    (∀ c t, combineSources c t = c ++ "\n\n" ++ t) ∧
    (∀ c t, splitLines (combineSources c t) = splitLines c ++ [""] ++ splitLines t) ∧
    (∀ c t, evaluation_full_code c t = c ++ t) := by
  refine ⟨fun c t => rfl, fun c t => ?_, fun c t => rfl⟩
  exact splitLines_append_blank c t

/-- C10: on Windows (`sys.platform == 'win32'`) `execute_python_code` never
arms the SIGALRM deadline: the `timeout` parameter has no effect on the
result, a non-terminating program makes the call diverge, and the same
program on a non-Windows platform is bounded and yields the timeout
record. -/
theorem C10_theorem :
    (∀ code test n1 n2 al,
        execute_python_code true code test n1 al =
          execute_python_code true code test n2 al) ∧
    execute_python_code true "while True: pass" "" 5 none = RunRes.diverges ∧
    execute_python_code false "while True: pass" "" 5 none =
      RunRes.returns ⟨false, "", "Timeout: Code execution timed out", false⟩ none := by
  refine ⟨fun code test n1 n2 al => rfl, by decide, by decide⟩

/-- C6: every `run_tests` call executes the combined program in a freshly
created empty namespace that is discarded on exit, so its result is
independent of the incoming process state (first conjunct: the verdict is a
function of the two source texts alone), and a variable bound by one call's
combined program is not visible to the next call's program: immediately
after any first call, a program reading `x` fails with `NameError`
regardless of what the first call bound. -/
theorem C6_theorem :
    (∀ c t a a', run_tests c t a = run_tests c t a') ∧
    (∀ c1 t1 a,
        resultOf (run_tests "print(x)" "" (stateAfter (run_tests c1 t1 a))) =
          some ⟨"error", false,
            "✗ Execution error: NameError: name x is not defined\n  Line 1: print(x)",
            some "NameError", some 1, some "print(x)", none, none, none⟩) := by
  constructor
  · intro c t a a'; rfl
  · intro c1 t1 a
    have h : run_tests "print(x)" "" (stateAfter (run_tests c1 t1 a)) =
        run_tests "print(x)" "" none := rfl
    rw [h]
    decide

/-- C1, counterexample: the claim says the verification call never
propagates an exception to its caller, but a program that raises
`SystemExit` (a `BaseException` that is no `Exception` subclass) matches
none of the `except` clauses of either verifier: `run_tests` and
`execute_python_code` both propagate it out of the call instead of
returning a record. -/
theorem C1_counterexample :
    run_tests "raise SystemExit" "" none = RunRes.raises PyExc.systemExit none ∧
    execute_python_code false "raise SystemExit" "" 5 none =
      RunRes.raises PyExc.systemExit (some 4) := by
  constructor
  · decide
  · decide

/-- C1, amended: for every input pair whose executed program(s) complete
normally or fail with an `Exception`-class failure (syntax error, runtime
exception, assertion failure, timeout), the verification call — `run_tests`
on the combined program, and `execute_python_code` on its two `exec` calls —
returns a verdict record, reporting the failure only through the record;
only a `BaseException` that is not an `Exception` (such as `SystemExit`)
escapes to the caller. -/
theorem C1_theorem :
    (∀ (c t : String) (al : Option Nat),
      isExcClassOut
          (pyExec "Test execution timed out" (combineSources c t) [] (some 5)) = true →
        isReturnsB (run_tests c t al) = true) ∧
    (∀ (code test : String) (n : Nat) (al : Option Nat),
      isExcClassOut (execPyOutcome code test n) = true →
        isReturnsB (execute_python_code false code test n al) = true) := by
  constructor
  · intro c t al h
    cases hE : pyExec "Test execution timed out" (combineSources c t) [] (some 5) with
    | ok ns out alx =>
      simp only [run_tests]
      rw [hE]
      rfl
    | exc e tb out alx =>
      rw [hE] at h
      cases e with
      | timeoutErr m => simp only [run_tests]; rw [hE]; rfl
      | assertionErr m => simp only [run_tests]; rw [hE]; rfl
      | synErr l txt m => simp only [run_tests]; rw [hE]; rfl
      | pyError n m => simp only [run_tests]; rw [hE]; rfl
      | systemExit => simp [isExcClassOut, isExceptionClass] at h
    | diverges =>
      rw [hE] at h
      simp [isExcClassOut] at h
  · intro code test n al h
    unfold execPyOutcome at h
    simp only [execute_python_code]
    rw [show ((if false then al else some n : Option Nat)) = some n from rfl]
    cases hE : pyExec "Code execution timed out" code [] (some n) with
    | diverges => rw [hE] at h; simp [isExcClassOut] at h
    | exc e tb out al1 =>
      rw [hE] at h
      cases e with
      | timeoutErr m => rfl
      | assertionErr m => rfl
      | synErr l txt m => rfl
      | pyError nm m => rfl
      | systemExit => simp [isExcClassOut, isExceptionClass] at h
    | ok ns1 out1 al1 =>
      rw [hE] at h
      by_cases ht : test = ""
      · subst ht
        rfl
      · simp only [ne_eq, ht, not_false_eq_true, if_true] at h ⊢
        cases hE2 : pyExec "Code execution timed out" test ns1 al1 with
        | diverges => rw [hE2] at h; simp [isExcClassOut] at h
        | exc e tb out al2 =>
          rw [hE2] at h
          cases e with
          | timeoutErr m => rfl
          | assertionErr m => rfl
          | synErr l txt m => rfl
          | pyError nm m => rfl
          | systemExit => simp [isExcClassOut, isExceptionClass] at h
        | ok ns2 out2 al2 => rfl

/-- C1 witness: both parts applied concretely — a normally terminating
program for `run_tests`, and an assertion-failing test after a normally
completing candidate for `execute_python_code` (the verdict is a returned
record in both). -/
theorem C1_witness :
    isExcClassOut
      (pyExec "Test execution timed out" (combineSources "x = 1" "") [] (some 5)) = true ∧
    isReturnsB (run_tests "x = 1" "" none) = true ∧
    (isExcClassOut
        (execPyOutcome "def add(a,b): return a-b" "assert add(2,3)==5" 5) = true ∧
      isReturnsB (execute_python_code false "def add(a,b): return a-b"
        "assert add(2,3)==5" 5 none) = true) :=
  ⟨by decide, C1_theorem.1 "x = 1" "" none (by decide),
   by decide,
   C1_theorem.2 "def add(a,b): return a-b" "assert add(2,3)==5" 5 none (by decide)⟩

/-- C2, counterexample: the claim says a syntactically invalid combined
program yields a dedicated SyntaxError outcome whose failing line/statement
come from the parser's error location.  In `run_tests` there is no static
parse step: the `SyntaxError` raised by `exec`'s compile falls into the
generic `except Exception` handler, whose traceback walk finds no
`"<string>"` frame (compile-time syntax errors carry none), so the call
returns the generic `"error"` status with `error_line`/`error_code` and
`stdout` all absent — the parser's location (line 2 here) is lost.  Nothing
of the program executed: the `print` on line 1 produced no output. -/
theorem C2_counterexample :
    run_tests "print(7)\ndef f(: pass" "" none =
      RunRes.returns
        ⟨"error", false, "✗ Execution error: SyntaxError: invalid syntax",
          some "SyntaxError", none, none, none, none, none⟩ none := by
  decide

/-- C2, amended: for every combined program that fails to parse, the call
returns the generic `"error"` status with error kind `"SyntaxError"`, no
failing-line/failing-statement fields and no captured output — and no
statement of the combined program is executed (`exec` compiles the whole
text before running any of it, which the embedding states as the raised
syntax error carrying empty output and leaving the alarm untouched). -/
theorem C2_theorem (c t : String) (al : Option Nat) (l : Nat) (txt : String)
    (h : parseProgram (combineSources c t) = Except.error (l, txt)) :
    pyExec "Test execution timed out" (combineSources c t) [] (some 5) =
      ExecOut.exc (PyExc.synErr l txt "invalid syntax") [] "" (some 5) ∧
    run_tests c t al =
      RunRes.returns
        ⟨"error", false, "✗ Execution error: SyntaxError: invalid syntax",
          some "SyntaxError", none, none, none, none, none⟩ none := by
  have hE : pyExec "Test execution timed out" (combineSources c t) [] (some 5) =
      ExecOut.exc (PyExc.synErr l txt "invalid syntax") [] "" (some 5) := by
    unfold pyExec
    rw [h]
  refine ⟨hE, ?_⟩
  simp only [run_tests]
  rw [hE]
  rfl

/-- C2 witness: a program whose second line is malformed; the parse error
is at line 2 and the marker `print` on line 1 never runs. -/
theorem C2_witness :
    parseProgram (combineSources "print(7)\ndef g(: pass" "x = 0") =
      Except.error (2, "def g(: pass") ∧
    (pyExec "Test execution timed out"
        (combineSources "print(7)\ndef g(: pass" "x = 0") [] (some 5) =
      ExecOut.exc (PyExc.synErr 2 "def g(: pass" "invalid syntax") [] "" (some 5) ∧
    run_tests "print(7)\ndef g(: pass" "x = 0" none =
      RunRes.returns
        ⟨"error", false, "✗ Execution error: SyntaxError: invalid syntax",
          some "SyntaxError", none, none, none, none, none⟩ none) := by
  constructor
  · rfl
  · exact C2_theorem "print(7)\ndef g(: pass" "x = 0" none 2 "def g(: pass" rfl

/-- C7: a combined program whose execution completes without raising
returns the Passed verdict: status `"passed"`, a success message, no
exception fields (`error`, `error_line`, `error_code` all absent), and in
`execute_python_code` the success record with empty `error`; captured
stdout is attached only when nonempty. -/
theorem C7_theorem :
    (∀ (c t : String) (al : Option Nat) (ns : Ns) (out : String) (alx : Option Nat),
      pyExec "Test execution timed out" (combineSources c t) [] (some 5) =
          ExecOut.ok ns out alx →
        run_tests c t al =
          RunRes.returns
            (if out ≠ "" then
              ⟨"passed", true, "All tests executed successfully",
                none, none, none, some out, none, none⟩
            else
              ⟨"passed", true, "All tests executed successfully",
                none, none, none, none, none, none⟩) none) ∧
    (∀ (code : String) (n : Nat) (al : Option Nat) (ns : Ns) (out : String)
        (alx : Option Nat),
      pyExec "Code execution timed out" code [] (some n) = ExecOut.ok ns out alx →
        execute_python_code false code "" n al =
          RunRes.returns ⟨true, out, "", true⟩ none) := by
  constructor
  · intro c t al ns out alx hE
    simp only [run_tests]
    rw [hE]
    rfl
  · intro code n al ns out alx hE
    simp only [execute_python_code]
    rw [show ((if false then al else some n : Option Nat)) = some n from rfl]
    rw [hE]
    rfl

/-- C7 witness: `x = 1` with empty test completes normally; both parts of
the theorem applied at it. -/
theorem C7_witness :
    pyExec "Test execution timed out" (combineSources "x = 1" "") [] (some 5) =
      ExecOut.ok [("x", PyBind.val 1)] "" (some 2) ∧
    run_tests "x = 1" "" none =
      RunRes.returns
        ⟨"passed", true, "All tests executed successfully",
          none, none, none, none, none, none⟩ none ∧
    execute_python_code false "x = 1" "" 5 none =
      RunRes.returns ⟨true, "", "", true⟩ none := by
  refine ⟨by decide, ?_, ?_⟩
  · have h := C7_theorem.1 "x = 1" "" none [("x", PyBind.val 1)] "" (some 2) (by decide)
    simpa using h
  · exact C7_theorem.2 "x = 1" 5 none [("x", PyBind.val 1)] "" (some 4) (by decide)

/-- C8, counterexample: the claim says a TimedOut verdict attaches the
stdout/stderr captured up to the interruption, but `run_tests`'s timeout
handler builds its result dictionary without any `stdout`/`stderr` keys:
here the combined program prints `5` before looping, the interpreter
captured `"5\n"` at the moment of interruption, yet the returned timeout
record has `stdout = none`. -/
theorem C8_counterexample :
    pyExec "Test execution timed out"
        (combineSources "print(5)" "while True: pass") [] (some 5) =
      ExecOut.exc (PyExc.timeoutErr "Test execution timed out")
        [⟨"<string>", 3⟩] "5\n" none ∧
    run_tests "print(5)" "while True: pass" none =
      RunRes.returns
        ⟨"timeout", false, "Test execution timed out (exceeded 5 seconds)",
          some "TimeoutError", none, none, none, none,
          some (formatExc (PyExc.timeoutErr "Test execution timed out")
            [runTestsFrame, ⟨"<string>", 3⟩])⟩ none := by
  constructor
  · decide
  · decide

/-- C8, amended: on deadline exhaustion `run_tests` returns the timeout
status with message, error kind and formatted traceback but discards the
captured buffers (no stdout/stderr fields); `execute_python_code`, by
contrast, attaches the stdout captured so far in its `output` field (its
record has no stderr field at all). -/
theorem C8_theorem :
    (∀ (c t : String) (al : Option Nat) (m : String) (tb : List Frame)
        (out : String) (alx : Option Nat),
      pyExec "Test execution timed out" (combineSources c t) [] (some 5) =
          ExecOut.exc (PyExc.timeoutErr m) tb out alx →
        run_tests c t al =
          RunRes.returns
            ⟨"timeout", false, "Test execution timed out (exceeded 5 seconds)",
              some "TimeoutError", none, none, none, none,
              some (formatExc (PyExc.timeoutErr m) (runTestsFrame :: tb))⟩ none) ∧
    (∀ (code : String) (n : Nat) (al : Option Nat) (m : String) (tb : List Frame)
        (out : String) (alx : Option Nat),
      pyExec "Code execution timed out" code [] (some n) =
          ExecOut.exc (PyExc.timeoutErr m) tb out alx →
        execute_python_code false code "" n al =
          RunRes.returns ⟨false, out, "Timeout: " ++ m, false⟩ none) := by
  constructor
  · intro c t al m tb out alx hE
    simp only [run_tests]
    rw [hE]
    rfl
  · intro code n al m tb out alx hE
    simp only [execute_python_code]
    rw [show ((if false then al else some n : Option Nat)) = some n from rfl]
    rw [hE]
    rfl

/-- C8 witness: a printing program that then loops, for both verifiers. -/
theorem C8_witness :
    pyExec "Test execution timed out"
        (combineSources "print(9)" "while True: pass") [] (some 5) =
      ExecOut.exc (PyExc.timeoutErr "Test execution timed out")
        [⟨"<string>", 3⟩] "9\n" none ∧
    run_tests "print(9)" "while True: pass" none =
      RunRes.returns
        ⟨"timeout", false, "Test execution timed out (exceeded 5 seconds)",
          some "TimeoutError", none, none, none, none,
          some (formatExc (PyExc.timeoutErr "Test execution timed out")
            (runTestsFrame :: [⟨"<string>", 3⟩]))⟩ none ∧
    execute_python_code false "print(9)\nwhile True: pass" "" 5 none =
      RunRes.returns
        ⟨false, "9\n", "Timeout: Code execution timed out", false⟩ none := by
  refine ⟨by decide, ?_, ?_⟩
  · exact C8_theorem.1 "print(9)" "while True: pass" none
      "Test execution timed out" [⟨"<string>", 3⟩] "9\n" none (by decide)
  · exact C8_theorem.2 "print(9)\nwhile True: pass" 5 none
      "Code execution timed out" [⟨"<string>", 2⟩] "9\n" none (by decide)

/-- C5, counterexample: the claim says the deadline timer is disarmed on
every exit path, but `execute_python_code` has no `finally`: when the
executed code raises `SystemExit` (matching no `except` clause) the call
propagates with the SIGALRM timer still armed (4 of the 5 budget units
remain), so a stale timer survives the call. -/
theorem C5_counterexample :
    execute_python_code false "raise SystemExit" "" 5 none =
      RunRes.raises PyExc.systemExit (some 4) ∧
    stateAfter (execute_python_code false "raise SystemExit" "" 5 none) ≠ none := by
  constructor
  · decide
  · decide

/-- C5, amended: `run_tests` disarms the timer on every exit path —
return or propagation — (its inner and outer `finally` always run), and
`execute_python_code` disarms it on every path on which it returns a
record; only the propagating non-`Exception` path of `execute_python_code`
leaks the armed timer. -/
theorem C5_theorem :
    (∀ (c t : String) (al : Option Nat), resAlarm (run_tests c t al) = some none) ∧
    (∀ (code test : String) (n : Nat) (al : Option Nat),
      isReturnsB (execute_python_code false code test n al) = true →
        resAlarm (execute_python_code false code test n al) = some none) := by
  constructor
  · intro c t al
    cases hE : pyExec "Test execution timed out" (combineSources c t) [] (some 5) with
    | ok ns out alx =>
      simp only [run_tests]
      rw [hE]
      rfl
    | exc e tb out alx =>
      cases e with
      | timeoutErr m => simp only [run_tests]; rw [hE]; rfl
      | assertionErr m => simp only [run_tests]; rw [hE]; rfl
      | synErr l txt m => simp only [run_tests]; rw [hE]; rfl
      | pyError n m => simp only [run_tests]; rw [hE]; rfl
      | systemExit => simp only [run_tests]; rw [hE]; rfl
    | diverges =>
      exact absurd hE (pyExec_some_ne_diverges _ _ _ _)
  · intro code test n al h
    simp only [execute_python_code] at h ⊢
    rw [show ((if false then al else some n : Option Nat)) = some n from rfl] at h ⊢
    cases hE : pyExec "Code execution timed out" code [] (some n) with
    | diverges => rw [hE] at h; simp [isReturnsB] at h
    | exc e tb out al1 =>
      cases e with
      | timeoutErr m => rfl
      | assertionErr m => rfl
      | synErr l txt m => rfl
      | pyError nm m => rfl
      | systemExit => rw [hE] at h; simp [execPyHandler, isReturnsB] at h
    | ok ns1 out1 al1 =>
      by_cases ht : test = ""
      · subst ht
        rfl
      · rw [hE] at h
        simp only [ne_eq, ht, not_false_eq_true, if_true] at h ⊢
        cases hE2 : pyExec "Code execution timed out" test ns1 al1 with
        | diverges => rw [hE2] at h; simp [isReturnsB] at h
        | exc e tb out al2 =>
          cases e with
          | timeoutErr m => rfl
          | assertionErr m => rfl
          | synErr l txt m => rfl
          | pyError nm m => rfl
          | systemExit => rw [hE2] at h; simp [execPyHandler, isReturnsB] at h
        | ok ns2 out2 al2 => rfl

/-- C5 witness: both parts at a normally completing program. -/
theorem C5_witness :
    resAlarm (run_tests "x = 3" "" none) = some none ∧
    (isReturnsB (execute_python_code false "x = 3" "" 5 none) = true ∧
      resAlarm (execute_python_code false "x = 3" "" 5 none) = some none) :=
  ⟨C5_theorem.1 "x = 3" "" none,
   by decide,
   C5_theorem.2 "x = 3" "" 5 none (by decide)⟩

/-- C3: when the combined program raises an assertion failure, `run_tests`
returns the Failed verdict with error kind `AssertionError`; the reported
`error_line` is the deepest frame of the captured traceback (walked from
innermost to outermost) whose source is the combined program itself (the
`"<string>"` frames, as opposed to the runner's own frame), and
`error_code` is the trimmed source line of the combined program at that
line number, which is also appended to the message. -/
theorem C3_theorem (c t : String) (al : Option Nat) (amsg : String)
    (tb : List Frame) (out : String) (alx : Option Nat) (l : Nat)
    (hE : pyExec "Test execution timed out" (combineSources c t) [] (some 5) =
      ExecOut.exc (PyExc.assertionErr amsg) tb out alx)
    (hL : findUserFrameLine (runTestsFrame :: tb) = some l)
    (hRange : 0 < l ∧ l ≤ (splitLines (combineSources c t)).length)
    (hNE : pyStrip ((splitLines (combineSources c t)).getD (l - 1) "") ≠ "") :
    run_tests c t al =
      RunRes.returns
        ⟨"failed", false,
          ("✗Test failed: " ++ (if amsg ≠ "" then amsg else "Assertion failed"))
            ++ "\n  Line " ++ toString l ++ ": "
            ++ pyStrip ((splitLines (combineSources c t)).getD (l - 1) ""),
          some "AssertionError", some l,
          some (pyStrip ((splitLines (combineSources c t)).getD (l - 1) "")),
          none, none, none⟩ none := by
  have hl0 : l ≠ 0 := Nat.pos_iff_ne_zero.mp hRange.1
  simp only [run_tests]
  rw [hE]
  simp only [runTestsErrInfo, hL]
  rw [if_pos hRange]
  simp only [runTestsAttach, if_pos hl0, Option.getD]
  rw [if_pos hNE]

/-- C3 witness: the spec's concrete scenario — candidate
`def add(a,b): return a-b`, test `assert add(2,3)==5`; the failure is the
assert on line 3 of the combined program, and the reported statement is
that assert line. -/
theorem C3_witness :
    pyExec "Test execution timed out"
        (combineSources "def add(a,b): return a-b" "assert add(2,3)==5") [] (some 5) =
      ExecOut.exc (PyExc.assertionErr "") [⟨"<string>", 3⟩] "" (some 2) ∧
    findUserFrameLine (runTestsFrame :: [⟨"<string>", 3⟩]) = some 3 ∧
    run_tests "def add(a,b): return a-b" "assert add(2,3)==5" none =
      RunRes.returns
        ⟨"failed", false,
          "✗Test failed: Assertion failed\n  Line 3: assert add(2,3)==5",
          some "AssertionError", some 3, some "assert add(2,3)==5",
          none, none, none⟩ none := by
  refine ⟨by decide, by decide, ?_⟩
  have h := C3_theorem "def add(a,b): return a-b" "assert add(2,3)==5" none ""
    [⟨"<string>", 3⟩] "" (some 2) 3 (by decide) (by decide) (by decide) (by decide)
  simpa using h

theorem graphLoop_step_continue (oracle : List Msg → String)
    (toolRun : String → String) (fuel : Nat) (st : AgentState)
    (h : should_continue (agent_node oracle st) = "continue") :
    graphLoop oracle toolRun (fuel + 1) st =
      graphLoop oracle toolRun fuel (tools_node toolRun (agent_node oracle st)) := by
  simp only [graphLoop]
  rw [h]
  simp

theorem graphLoop_step_extract (oracle : List Msg → String)
    (toolRun : String → String) (fuel : Nat) (st : AgentState)
    (h : should_continue (agent_node oracle st) = "extract") :
    graphLoop oracle toolRun (fuel + 1) st =
      extract_code_node (agent_node oracle st) := by
  simp only [graphLoop]
  rw [h]
  simp

/-- C9: with budget 3 and an oracle that at every round returns the same
response — a tool-invocation request carrying the unchanged candidate (it
mentions `execute_python_code` and contains no fenced code block) — while
every tool verdict is failing, the loop runs exactly 3 agent rounds, is
then forced out by the budget check (`iteration >= max_iterations`, the
Exhausted exit), and the extraction fallback returns the original buggy
code unchanged as the final source. -/
theorem C9_theorem (buggy doc tests r : String) (toolRun : String → String)
    (h1 : strContains r "execute_python_code" = true)
    (h2 : strContains r "```python" = false) :
    (fix_bug (fun _ => r) toolRun 3 buggy doc tests).fixed_code = buggy ∧
    (fix_bug (fun _ => r) toolRun 3 buggy doc tests).iteration = 3 := by
  have hblock : extractPyBlock r = none := by
    unfold extractPyBlock
    cases hsf : splitFirst r "```python" with
    | none => rfl
    | some p =>
      rw [strContains, hsf] at h2
      simp at h2
  set o : List Msg → String := fun _ => r with ho
  set P : String := initialPrompt doc buggy tests with hP
  set T : String := toolRun r with hT
  set st0 : AgentState := ⟨[], buggy, doc, tests, "", 0, 3⟩ with hst0
  set st1 : AgentState := ⟨[.human P, .ai r], buggy, doc, tests, "", 1, 3⟩ with hst1
  set st1t : AgentState :=
    ⟨[.human P, .ai r, .toolMsg T], buggy, doc, tests, "", 1, 3⟩ with hst1t
  set st2 : AgentState :=
    ⟨[.human P, .ai r, .toolMsg T, .ai r], buggy, doc, tests, "", 2, 3⟩ with hst2
  set st2t : AgentState :=
    ⟨[.human P, .ai r, .toolMsg T, .ai r, .toolMsg T], buggy, doc, tests, "", 2, 3⟩
    with hst2t
  set st3 : AgentState :=
    ⟨[.human P, .ai r, .toolMsg T, .ai r, .toolMsg T, .ai r],
      buggy, doc, tests, "", 3, 3⟩ with hst3
  have e1 : agent_node o st0 = st1 := rfl
  have e1t : tools_node toolRun st1 = st1t := rfl
  have e2 : agent_node o st1t = st2 := rfl
  have e2t : tools_node toolRun st2 = st2t := rfl
  have e3 : agent_node o st2t = st3 := rfl
  have s1 : should_continue st1 = "continue" := by
    simp [should_continue, lastMsgD, h1]
  have s2 : should_continue st2 = "continue" := by
    simp [should_continue, lastMsgD, h1]
  have s3 : should_continue st3 = "extract" := by
    simp [should_continue]
  have hfinal : fix_bug o toolRun 3 buggy doc tests = extract_code_node st3 := by
    unfold fix_bug graph_invoke
    have hfuel : st0.max_iterations + 1 = 3 + 1 := rfl
    calc graphLoop o toolRun (3 + 1) st0
        = graphLoop o toolRun 3 (tools_node toolRun (agent_node o st0)) :=
          graphLoop_step_continue o toolRun 3 st0 (by rw [e1]; exact s1)
      _ = graphLoop o toolRun (2 + 1) st1t := by rw [e1, e1t]
      _ = graphLoop o toolRun 2 (tools_node toolRun (agent_node o st1t)) :=
          graphLoop_step_continue o toolRun 2 st1t (by rw [e2]; exact s2)
      _ = graphLoop o toolRun (1 + 1) st2t := by rw [e2, e2t]
      _ = extract_code_node (agent_node o st2t) :=
          graphLoop_step_extract o toolRun 1 st2t (by rw [e3]; exact s3)
      _ = extract_code_node st3 := by rw [e3]
  have hx : extract_code_node st3 = { st3 with fixed_code := buggy } := by
    simp [extract_code_node, firstAIBlock, hblock]
  rw [hfinal, hx]
  exact ⟨rfl, rfl⟩

/-- C9 witness: a concrete constant oracle response requesting the tool on
the unchanged candidate, and a failing tool verdict. -/
theorem C9_witness :
    strContains "Action: execute_python_code\nCODE:\ndef add(a,b): return a-b"
      "execute_python_code" = true ∧
    strContains "Action: execute_python_code\nCODE:\ndef add(a,b): return a-b"
      "```python" = false ∧
    ((fix_bug (fun _ => "Action: execute_python_code\nCODE:\ndef add(a,b): return a-b")
        (fun _ => "✗ Execution failed.") 3
        "def add(a,b): return a-b" "Add two numbers." "assert add(2,3)==5").fixed_code =
      "def add(a,b): return a-b" ∧
    (fix_bug (fun _ => "Action: execute_python_code\nCODE:\ndef add(a,b): return a-b")
        (fun _ => "✗ Execution failed.") 3
        "def add(a,b): return a-b" "Add two numbers." "assert add(2,3)==5").iteration = 3) := by
  refine ⟨by decide, by decide, ?_⟩
  exact C9_theorem "def add(a,b): return a-b" "Add two numbers." "assert add(2,3)==5"
    "Action: execute_python_code\nCODE:\ndef add(a,b): return a-b"
    (fun _ => "✗ Execution failed.") (by decide) (by decide)
